import Mathlib

/-!
Shallow embedding of `src/jadio_feeder/podcast.py` (jadio-podcast feed assembly
engine) and verification of its specified properties.

Conventions of the embedding:
* Python exceptions become an explicit `PyErr` error type and fallible code
  returns `Except PyErr _`.
* `datetime.datetime` values are modelled by `PyDateTime`: a wall-clock stamp
  (in minutes, any fixed granularity works) plus an optional UTC-offset
  (`tzinfo`), which is enough to express Python comparison/equality of
  homogeneous (all-naive or all-aware) datetimes and `strftime` output.
* The file system is modelled by `FileSys`: for each directory (a list of path
  components) it yields the files matching the glob pattern `media.*`, in glob
  order.  A file carried by `FileSys` exists on disk, so the `path.exists()`
  checks of the source succeed for paths produced by the glob.
* `bson.ObjectId` is modelled as its hexadecimal string (`str` on it is the
  identity).
* External library behaviour that the code relies on is embedded at the level
  the code observes it: `mutagen` readers report a duration per file
  (`FSFile.mediaLength`), `sorted` is a stable sort (`List.mergeSort`),
  `pytz.timezone("Asia/Tokyo")` attached via `datetime.replace` carries the
  zone's base (LMT) offset of +09:19 = 559 minutes, and `urllib` quoting /
  joining is embedded for the ASCII, path-carrying-base inputs the program
  uses.
-/

set_option autoImplicit false

namespace JadioPodcast

/-- Python exception kinds that the embedded code can raise. -/
inductive PyErr where
  /-- `IndexError`, e.g. `list(...)[0]` on an empty list. -/
  | indexError
  /-- `FileNotFoundError`. -/
  | fileNotFound
  /-- `ValueError` raised by `_media_path_to_duration` / `_path_to_enclosure_type`
  for an unsupported file extension. -/
  | unsupportedFormat
  /-- `ValueError` raised by `PodcastRssFeedGenCreator.create` for an invalid
  `sort_by` value. -/
  | invalidArgument
deriving DecidableEq, Repr

/-- Model of a Python `datetime.datetime`: wall-clock fields collapsed into one
number plus the optional `tzinfo` UTC offset (in minutes). -/
structure PyDateTime where
  wall : Int
  tz : Option Int := none
deriving DecidableEq, Repr

/-- The instant a datetime denotes: wall clock minus UTC offset (naive
datetimes are read at offset 0). -/
def PyDateTime.instant (d : PyDateTime) : Int :=
  d.wall - d.tz.getD 0

/-- Python `==` on datetimes: naive values compare by wall-clock fields, aware
values compare by instant, a naive/aware mix is unequal. -/
def PyDateTime.pyEq (a b : PyDateTime) : Bool :=
  match a.tz, b.tz with
  | none, none => a.wall == b.wall
  | some _, some _ => a.instant == b.instant
  | _, _ => false

/-- `bson.ObjectId`, modelled as its hex string; `str` on it is the identity. -/
abbrev ObjectId := String

/-- The fields of a `jadio.Program` record that `podcast.py` consumes. -/
structure Program where
  platform_id : String
  station_id : String
  episode_id : Int
  episode_name : String
  datetime : PyDateTime
  duration : Option Nat := none
  description : Option String := none
  information : Option String := none
  url : Option String := none
  image_url : Option String := none
  is_video : Bool := false
  copyright : Option String := none
  name : String
deriving DecidableEq, Repr

/-- A file on disk as the program observes it: its base name, its extension
(Python `Path.suffix`, dot included), its size in bytes (`os.path.getsize`)
and the playback duration its container metadata reports (`media.info.length`
as read by the `mutagen` readers). -/
structure FSFile where
  name : String
  suffix : String
  size : Nat
  mediaLength : Nat
deriving DecidableEq, Repr

/-- The file system: for a directory (list of path components) the files
matching the glob pattern `media.*`, in glob order.  Files returned here
exist on disk. -/
structure FileSys where
  mediaGlob : List String → List FSFile

/-- Python truthiness-based `a or b` on optional strings (`""` and `None` are
falsy). -/
def py_or_str (a b : Option String) : Option String :=
  match a with
  | some s => if s = "" then b else some s
  | none => b

/-- Embeds `_media_path_to_duration`.  The path handed to it exists (it was
produced by the glob in `PodcastItem.from_program`), so the
`FileNotFoundError` branch is not reachable here; dispatch is purely on the
extension: `.mp3` uses the `mp3.MP3` reader, `.m4a` and `.mp4` use the
`mp4.MP4` reader, anything else raises `ValueError`. -/
def media_path_to_duration (f : FSFile) : Except PyErr Nat :=
  if f.suffix = ".mp3" then .ok f.mediaLength
  else if f.suffix = ".m4a" then .ok f.mediaLength
  else if f.suffix = ".mp4" then .ok f.mediaLength
  else .error .unsupportedFormat

/-- Base UTC offset (minutes) that `pytz.timezone("Asia/Tokyo")` carries when
attached directly via `datetime.replace` (the zone's LMT offset +09:19, not
the standard +09:00 — `replace` bypasses `localize`). -/
def pytz_tokyo_offset : Int := 559

/-- `datetime.replace(tzinfo=...)`: keeps every wall-clock field and installs
the given UTC offset. -/
def tz_replace (d : PyDateTime) (offset : Int) : PyDateTime :=
  { wall := d.wall, tz := some offset }

/-- Semantic content of the string produced by
`strftime("%a, %d %b %Y %H:%M:%S %z")`: the wall-clock fields that are
rendered, and the `%z` offset. -/
structure PubDateString where
  wall : Int
  offsetMinutes : Int
deriving DecidableEq, Repr

/-- The instant denoted by a rendered RFC-822-style timestamp. -/
def PubDateString.instant (p : PubDateString) : Int :=
  p.wall - p.offsetMinutes

/-- Rendering of an aware datetime by `strftime`: wall-clock fields plus the
`%z` offset of its `tzinfo`. -/
def strftime_rfc822 (d : PyDateTime) : PubDateString :=
  { wall := d.wall, offsetMinutes := d.tz.getD 0 }

/-- Embeds `_datetime_to_pub_data` (with its default `zone="Asia/Tokyo"`):
`replace` the tzinfo, then format. -/
def datetime_to_pub_data (d : PyDateTime) : PubDateString :=
  strftime_rfc822 (tz_replace d pytz_tokyo_offset)

/-- Hex digit (upper case, as `urllib.parse.quote` emits). -/
def hexDigit (n : Nat) : Char :=
  if n < 10 then Char.ofNat (48 + n) else Char.ofNat (55 + n)

/-- Percent-encoding of one character by `urllib.parse.quote` with the default
`safe="/"`: ASCII letters, digits, `_.-~` and `/` pass through, everything
else becomes `%XX` (multi-byte UTF-8 expansion of non-ASCII characters is not
modelled; the program's path components are ASCII). -/
def url_quote_char (c : Char) : String :=
  if c.isAlphanum || c = '-' || c = '.' || c = '_' || c = '~' || c = '/' then
    String.singleton c
  else
    "%" ++ String.singleton (hexDigit (c.toNat / 16)) ++ String.singleton (hexDigit (c.toNat % 16))

/-- `urllib.parse.quote` with the default `safe="/"`. -/
def url_quote (s : String) : String :=
  String.join (s.data.map url_quote_char)

/-- `os.path.relpath(path, root)` for the call sites of this program, where
`root` is always a prefix of `path`: the components of `path` after `root`. -/
def relpath (path root : List String) : List String :=
  path.drop root.length

/-- `urllib.parse.urljoin(base, rel)` for the inputs this program produces: a
relative `rel` (no scheme, no leading slash) joined onto a base whose path is
kept up to and including its last `/`. -/
def urljoin (base rel : String) : String :=
  String.mk ((base.data.reverse.dropWhile (fun c => c ≠ '/')).reverse) ++ rel

/-- Embeds `_path_to_enclosure_url`. -/
def path_to_enclosure_url (path root : List String) (base_url : String) : String :=
  urljoin base_url ("media/" ++ url_quote (String.intercalate "/" (relpath path root)))

/-- Embeds `_path_to_enclosure_length`.  The file handed to it exists (it was
produced by the glob), so the `FileNotFoundError` branch is not reachable
here; the result is the file size in bytes. -/
def path_to_enclosure_length (f : FSFile) : Nat :=
  f.size

/-- Embeds `_path_to_enclosure_type`: MIME type purely from `path.suffix` and
the `is_video` flag. -/
def path_to_enclosure_type (suffix : String) (is_video : Bool) : Except PyErr String :=
  if suffix = ".mp3" then .ok "audio/mpeg"
  else if suffix = ".m4a" then .ok "audio/x-m4a"
  else if suffix = ".mp4" then .ok (if is_video then "video/mp4" else "audio/x-m4a")
  else if suffix = ".mov" then .ok "video/quicktime"
  else .error .unsupportedFormat

/-- The `Enclosure` dataclass. -/
structure Enclosure where
  url : String
  length : Option Nat := none
  type : Option String := none
deriving DecidableEq, Repr

/-- Embeds `Enclosure.from_path` (the keyword arguments `url`, `length`,
`type` are evaluated in that order, so a type-resolution error is raised
after the url and length are computed). -/
def Enclosure.from_path (f : FSFile) (path root : List String) (is_video : Bool)
    (base_url : String) : Except PyErr Enclosure := do
  let url := path_to_enclosure_url path root base_url
  let length := path_to_enclosure_length f
  let ty ← path_to_enclosure_type f.suffix is_video
  pure { url := url, length := some length, type := some ty }

/-- The `EpisodeType` enum. -/
inductive EpisodeType where
  | full
  | trailer
  | bonus
deriving DecidableEq, Repr

/-- The `ItunesCategory` dataclass. -/
structure ItunesCategory where
  cat : Option String := none
  sub : Option String := none
deriving DecidableEq, Repr

/-- The `ItunesType` enum. -/
inductive ItunesType where
  | episodic
  | serial
deriving DecidableEq, Repr

/-- The `PodcastItem` dataclass. -/
structure PodcastItem where
  title : String
  enclosure : Enclosure
  guid : String
  pub_date : Option PyDateTime := none
  description : Option String := none
  itunes_duration : Option Nat := none
  link : Option String := none
  itunes_image : Option String := none
  itunes_explicit : Bool := false
  itunes_title : Option String := none
  itunes_episode : Option Nat := none
  itunes_season : Option Nat := none
  itunes_episode_type : EpisodeType := .full
  podcast_transcript : Option String := none
  itunes_block : Bool := false
deriving DecidableEq, Repr

/-- Embeds `PodcastItem.from_program`: locate the media file by globbing
`media.*` under `media_root/platform_id/station_id/str(program_id)/`
(`[0]` of the match list raises `IndexError` when empty), compute the
duration (`program.duration or _media_path_to_duration(media_path)`, the
right operand evaluated only when `program.duration` is `None` or `0`), then
build the item. -/
def PodcastItem.from_program (fs : FileSys) (program : Program) (program_id : ObjectId)
    (base_url : String) (media_root : List String) : Except PyErr PodcastItem :=
  let media_dir := media_root ++ [program.platform_id, program.station_id, program_id]
  match fs.mediaGlob media_dir with
  | [] => .error .indexError
  | f :: _ => do
    let duration ← match program.duration with
      | some d => if d = 0 then media_path_to_duration f else pure d
      | none => media_path_to_duration f
    let enclosure ← Enclosure.from_path f (media_dir ++ [f.name]) media_root
      program.is_video base_url
    pure
      { title := program.episode_name
        enclosure := enclosure
        guid := toString program.episode_id
        pub_date := some program.datetime
        description := py_or_str program.description program.information
        itunes_duration := some duration
        link := program.url
        itunes_image := program.image_url }

/-- The `PodcastChannel` dataclass (fields `podcast.py` populates; the
declared `str` type of `description` is not enforced by the dataclass, the
value stored can be `None`). -/
structure PodcastChannel where
  title : String
  description : Option String := none
  itunes_image : Option String := none
  language : String := "ja"
  itunes_category : Option ItunesCategory := none
  itunes_explicit : Bool := false
  itunes_author : Option String := none
  link : Option String := none
  itunes_title : Option String := none
  itunes_type : ItunesType := .episodic
  copyright : Option String := none
  itunes_new_feed_url : Option String := none
  itunes_block : Bool := false
  itunes_complete : Bool := false
deriving DecidableEq, Repr

/-- Embeds `PodcastChannel.from_program`. -/
def PodcastChannel.from_program (program : Program) : PodcastChannel :=
  { title := program.name
    description := py_or_str program.description program.information
    itunes_image := program.image_url
    itunes_author := some program.station_id
    link := program.url
    copyright := program.copyright }

/-- The populated feed document: the channel-level tag set and the item-level
tag sets in their final order (what `create` hands to the `feedgen`
builder). -/
structure Feed where
  channel : PodcastChannel
  items : List PodcastItem
deriving DecidableEq, Repr

/-- One (program, stored id) pair, the element type of `create`'s input. -/
abbrev PP := Program × ObjectId

/-- Embeds the `sort_by` resolution of `PodcastRssFeedGenCreator.create`:
an explicit value must be `"datetime"` or `"episode_id"` (`ValueError`
otherwise); when unset, `"datetime"` if `len(set(station ids)) > 1`, else
`"episode_id"` when the first pair's station id is `onsen.ag` or
`hibiki-radio.jp` (`pairs[0]` raises `IndexError` on an empty list), else
`"datetime"`. -/
def resolveSortBy (sort_by : Option String) (pairs : List PP) : Except PyErr String :=
  match sort_by with
  | some s => if s = "datetime" ∨ s = "episode_id" then .ok s else .error .invalidArgument
  | none =>
    if 1 < ((pairs.map (fun q => q.1.station_id)).dedup).length then .ok "datetime"
    else
      match pairs with
      | [] => .error .indexError
      | (p, _) :: _ =>
        if p.station_id = "onsen.ag" ∨ p.station_id = "hibiki-radio.jp" then
          .ok "episode_id"
        else
          .ok "datetime"

/-- The key `getattr(x[0], sort_by)` is compared on: the instant of the
datetime (wall clock for the naive datetimes the records carry) or the
episode id. -/
def sortKey (sb : String) (q : PP) : Int :=
  if sb = "datetime" then q.1.datetime.instant else q.1.episode_id

/-- Embeds `sorted(pairs, key=..., reverse=not from_oldest)`: Python's stable
sort, ascending on the key when `from_oldest`, descending otherwise (equal
keys keep their input order in both cases). -/
def sortPairs (sb : String) (from_oldest : Bool) (pairs : List PP) : List PP :=
  if from_oldest then
    pairs.mergeSort (fun a b => decide (sortKey sb a ≤ sortKey sb b))
  else
    pairs.mergeSort (fun a b => decide (sortKey sb b ≤ sortKey sb a))

/-- The loop body of the duplicate-removal pass: `prev_datetime` and
`prev_episode_id` start as `None` and are updated to the current pair's
fields on every iteration, kept or not; a pair is appended only when its
datetime differs from `prev_datetime` and its episode id differs from
`prev_episode_id` (Python `!=`, where `None != x` is true). -/
def dedupGo (prevDt : Option PyDateTime) (prevEp : Option Int) :
    List PP → List PP
  | [] => []
  | (p, oid) :: rest =>
    let keep :=
      (match prevDt with
       | none => true
       | some d => !(d.pyEq p.datetime))
      &&
      (match prevEp with
       | none => true
       | some e => !(e == p.episode_id))
    if keep then
      (p, oid) :: dedupGo (some p.datetime) (some p.episode_id) rest
    else
      dedupGo (some p.datetime) (some p.episode_id) rest

/-- Embeds the `remove_duplicates` pass of `create`. -/
def dedupPass (pairs : List PP) : List PP :=
  dedupGo none none pairs

/-- The sequence of pairs after the sort and the optional duplicate-removal
pass. -/
def arrangePairs (sb : String) (from_oldest remove_duplicates : Bool)
    (pairs : List PP) : List PP :=
  let sortedPairs := sortPairs sb from_oldest pairs
  if remove_duplicates then dedupPass sortedPairs else sortedPairs

/-- Embeds the channel selection of `create`: an explicit channel is used
as-is, otherwise the channel is derived from
`pairs[-1 if from_oldest else 0]` of the processed sequence (`IndexError`
when it is empty). -/
def selectChannel (channel : Option PodcastChannel) (from_oldest : Bool)
    (arranged : List PP) : Except PyErr PodcastChannel :=
  match channel with
  | some c => .ok c
  | none =>
    match (if from_oldest then arranged.getLast? else arranged.head?) with
    | some q => .ok (PodcastChannel.from_program q.1)
    | none => .error .indexError

/-- Embeds `PodcastRssFeedGenCreator.create` (the creator's constructor
arguments `base_url` and `media_root` are passed explicitly): resolve the
sort key, sort, optionally remove duplicates, select the channel, then build
one item per surviving pair in order; the first failing item aborts the whole
call (the error is logged and re-raised). -/
def create (fs : FileSys) (base_url : String) (media_root : List String)
    (pairs : List PP) (channel : Option PodcastChannel)
    (sort_by : Option String) (from_oldest : Bool) (remove_duplicates : Bool) :
    Except PyErr Feed := do
  let sb ← resolveSortBy sort_by pairs
  let arranged := arrangePairs sb from_oldest remove_duplicates pairs
  let chan ← selectChannel channel from_oldest arranged
  let items ← arranged.mapM
    (fun q => PodcastItem.from_program fs q.1 q.2 base_url media_root)
  pure { channel := chan, items := items }

/-- The condition under which the duplicate-removal loop keeps a non-first
item: its datetime differs from the immediately preceding input item's
datetime and its episode id differs from that item's episode id. -/
def differs_from_prev (prev cur : Program) : Bool :=
  !(prev.datetime.pyEq cur.datetime) && !(prev.episode_id == cur.episode_id)

/-! ### Concrete sample data for witnesses and counterexamples -/

/-- A sample program record (station `TBS`, episode id 7, precomputed
duration). -/
def progA : Program :=
  { platform_id := "radiko.jp", station_id := "TBS", episode_id := 7,
    episode_name := "ep7", datetime := { wall := 0 }, duration := some 60,
    description := some "d", information := some "i", url := some "u",
    image_url := some "img", copyright := some "c", name := "showA" }

/-- A sample mp3 media file. -/
def fileA : FSFile :=
  { name := "media.mp3", suffix := ".mp3", size := 5, mediaLength := 33 }

/-- A file system holding `fileA` in `progA`'s media directory (under media
root `r` and stored id `oid-a`). -/
def fsA : FileSys :=
  ⟨fun d => if d = ["r", "radiko.jp", "TBS", "oid-a"] then [fileA] else []⟩

/-- A file system with no media files at all. -/
def fsEmpty : FileSys := ⟨fun _ => []⟩

/-- A sample mov media file. -/
def fileMov : FSFile :=
  { name := "media.mov", suffix := ".mov", size := 9, mediaLength := 44 }

/-- A file system holding a `.mov` media file in every directory. -/
def fsMov : FileSys := ⟨fun _ => [fileMov]⟩

/-- Dedup sample: datetime 1, episode id 1. -/
def pD1 : Program := { progA with episode_id := 1, datetime := { wall := 1 } }

/-- Dedup sample: datetime 2, episode id 1. -/
def pD2 : Program := { progA with episode_id := 1, datetime := { wall := 2 } }

/-- Dedup sample: datetime 1, episode id 2. -/
def pD3 : Program := { progA with episode_id := 2, datetime := { wall := 1 } }

/-- Channel-selection sample: show `showA`, datetime 5, episode id 1. -/
def pA7 : Program :=
  { progA with
    name := "showA"
    episode_id := 1
    datetime := { wall := 5 }
    duration := some 10 }

/-- Channel-selection sample: show `showB`, same datetime 5, episode id 2. -/
def pB7 : Program :=
  { progA with
    name := "showB"
    episode_id := 2
    datetime := { wall := 5 }
    duration := some 10 }

/-- A file system holding `fileA` in `pA7`'s media directory (empty media
root, stored id `a`). -/
def fs7 : FileSys :=
  ⟨fun d => if d = ["radiko.jp", "TBS", "a"] then [fileA] else []⟩

/-- The item `create` builds for `(pA7, "a")` under `fs7` with empty media
root and empty base url. -/
def itemW7 : PodcastItem :=
  { title := "ep7"
    enclosure :=
      { url := "media/radiko.jp/TBS/a/media.mp3"
        length := some 5
        type := some "audio/mpeg" }
    guid := "1"
    pub_date := some { wall := 5 }
    description := some "d"
    itunes_duration := some 10
    link := some "u"
    itunes_image := some "img" }

/-- A program with no precomputed duration (forces the media inspector). -/
def pMovW : Program := { progA with duration := none }

/-! ### Helper lemmas -/

/-- Inversion of a successful `Except` bind. -/
theorem except_bind_ok {ε α β : Type} {x : Except ε α} {f : α → Except ε β} {b : β}
    (h : x >>= f = .ok b) : ∃ a, x = .ok a ∧ f a = .ok b := by
  cases x with
  | error e => simp [Bind.bind, Except.bind] at h
  | ok a => exact ⟨a, rfl, by simpa [Bind.bind, Except.bind] using h⟩

/-- Closed form of the duplicate-removal loop after the first item: the
survivors of `rest` are exactly the items that differ from their immediate
input predecessor in both fields. -/
theorem dedupGo_after (prev : PP) (rest : List PP) :
    dedupGo (some prev.1.datetime) (some prev.1.episode_id) rest
      = (((prev :: rest).zip rest).filter
          (fun q => differs_from_prev q.1.1 q.2.1)).map (fun q => q.2) := by
  induction rest generalizing prev with
  | nil => simp [dedupGo]
  | cons y t ih =>
    rw [List.zip_cons_cons]
    by_cases hk : differs_from_prev prev.1 y.1
    · simp only [dedupGo, differs_from_prev] at hk ⊢
      rw [if_pos hk, List.filter_cons_of_pos (by simpa using hk), List.map_cons]
      exact congrArg _ (ih y)
    · simp only [dedupGo, differs_from_prev] at hk ⊢
      rw [if_neg hk, List.filter_cons_of_neg (by simpa using hk)]
      exact ih y

/-- If every item of `rest` differs from its predecessor in both fields
(starting from `prev`), the loop keeps everything. -/
theorem dedupGo_of_chain (rest : List PP) : ∀ prev : PP,
    List.Chain (fun a b => differs_from_prev a.1 b.1 = true) prev rest →
    dedupGo (some prev.1.datetime) (some prev.1.episode_id) rest = rest := by
  induction rest with
  | nil => intro prev _; simp [dedupGo]
  | cons y t ih =>
    intro prev h
    cases h with
    | cons hy ht =>
      simp only [differs_from_prev] at hy
      simp only [dedupGo]
      rw [if_pos (by simpa using hy)]
      exact congrArg _ (ih y ht)

/-- `sort_by` resolution for a single pair: the station-id set is a
singleton, so the allow-list test on the first pair decides the key. -/
theorem resolveSortBy_single (p : PP) :
    resolveSortBy none [p]
      = .ok (if p.1.station_id = "onsen.ag" ∨ p.1.station_id = "hibiki-radio.jp"
             then "episode_id" else "datetime") := by
  by_cases hc : p.1.station_id = "onsen.ag" ∨ p.1.station_id = "hibiki-radio.jp" <;>
    simp [resolveSortBy, hc]

/-- Sorting and deduplicating a single pair changes nothing. -/
theorem arrangePairs_single (sb : String) (fo rd : Bool) (x : PP) :
    arrangePairs sb fo rd [x] = [x] := by
  cases fo <;> cases rd <;> simp [arrangePairs, sortPairs, dedupPass, dedupGo]

/-- A list headed by `a` has more than one distinct element exactly when some
later element differs from `a` (`len(set(...)) > 1` in the source). -/
theorem one_lt_dedup_length_iff {α : Type} [DecidableEq α] (a : α) (l : List α) :
    1 < ((a :: l).dedup).length ↔ ∃ b ∈ l, b ≠ a := by
  rw [← List.card_toFinset, Finset.one_lt_card]
  simp only [List.toFinset_cons, Finset.mem_insert, List.mem_toFinset]
  constructor
  · rintro ⟨x, hx, y, hy, hxy⟩
    by_cases hxa : x = a
    · subst hxa
      rcases hy with hya | hy
      · exact absurd hya.symm hxy
      · exact ⟨y, hy, fun hya => hxy hya.symm⟩
    · rcases hx with hxa2 | hx
      · exact absurd hxa2 hxa
      · exact ⟨x, hx, hxa⟩
  · rintro ⟨b, hb, hba⟩
    exact ⟨a, Or.inl rfl, b, Or.inr hb, fun hab => hba hab.symm⟩

/-- Transitivity of the boolean comparator used by the embedded sort. -/
theorem sortLe_trans (k : PP → Int) (a b c : PP)
    (h1 : decide (k a ≤ k b) = true) (h2 : decide (k b ≤ k c) = true) :
    decide (k a ≤ k c) = true := by
  simp only [decide_eq_true_eq] at h1 h2 ⊢
  omega

/-- Totality of the boolean comparator used by the embedded sort. -/
theorem sortLe_total (k : PP → Int) (a b : PP) :
    (decide (k a ≤ k b) || decide (k b ≤ k a)) = true := by
  simp only [Bool.or_eq_true, decide_eq_true_eq]
  omega

/-! ### Claim theorems -/

/-- C1 (counterexample): `PodcastItem.from_program` does not set the guid to
the string form of the identifier argument: for `progA` (whose episode id
field is `7`) stored under identifier `oid-a`, the produced guid is `"7"`,
not `"oid-a"`. -/
theorem guid_not_from_identifier :
    (PodcastItem.from_program fsA progA "oid-a" "https://x.example/" ["r"]).toOption.map
        (fun item => item.guid) = some "7"
    ∧ "7" ≠ "oid-a" :=
  ⟨rfl, by decide⟩

/-- C1 (amended): for every source record and identifier, whenever
`PodcastItem.from_program` succeeds, it sets the item's guid to the string
form of the source record's own episode id field, not to the string form of
the identifier argument. -/
theorem guid_from_episode_id (fs : FileSys) (program : Program)
    (program_id : ObjectId) (base_url : String) (media_root : List String)
    (item : PodcastItem)
    (h : PodcastItem.from_program fs program program_id base_url media_root = .ok item) :
    item.guid = toString program.episode_id := by
  simp only [PodcastItem.from_program] at h
  cases hg : fs.mediaGlob
      (media_root ++ [program.platform_id, program.station_id, program_id]) with
  | nil => rw [hg] at h; exact absurd h (by simp)
  | cons f rest =>
    rw [hg] at h
    simp only [] at h
    have finish : ∀ (x : Except PyErr Nat),
        (x >>= fun duration =>
          Enclosure.from_path f
              (media_root ++ [program.platform_id, program.station_id, program_id] ++ [f.name])
              media_root program.is_video base_url >>= fun enclosure =>
            pure
              { title := program.episode_name
                enclosure := enclosure
                guid := toString program.episode_id
                pub_date := some program.datetime
                description := py_or_str program.description program.information
                itunes_duration := some duration
                link := program.url
                itunes_image := program.image_url }) = .ok item →
        item.guid = toString program.episode_id := by
      intro x hx
      obtain ⟨d, hd, hx⟩ := except_bind_ok hx
      obtain ⟨e, he, hx⟩ := except_bind_ok hx
      simp only [pure, Except.pure, Except.ok.injEq] at hx
      rw [← hx]
    cases hdur : program.duration with
    | none =>
      rw [hdur] at h
      exact finish _ h
    | some d =>
      rw [hdur] at h
      simp only [] at h
      split at h
      · exact finish _ h
      · exact finish _ h

/-- C1 (witness for the amended theorem): instantiated at `progA` under
identifier `oid-a`, where the guid is `"7"`. -/
theorem guid_from_episode_id_witness :
    ({ title := "ep7"
       enclosure :=
         { url := "https://x.example/media/radiko.jp/TBS/oid-a/media.mp3"
           length := some 5
           type := some "audio/mpeg" }
       guid := "7"
       pub_date := some { wall := 0 }
       description := some "d"
       itunes_duration := some 60
       link := some "u"
       itunes_image := some "img" } : PodcastItem).guid = toString progA.episode_id :=
  guid_from_episode_id fsA progA "oid-a" "https://x.example/" ["r"] _ rfl

/-- C2: the duplicate-removal pass keeps the first item of its input
unconditionally, and keeps every later item exactly when it differs from the
immediately preceding input item in datetime and in episode id
simultaneously (so an item is suppressed exactly when at least one of the
two fields equals the preceding item's corresponding field). -/
theorem dedup_keeps_iff_both_differ (x : PP) (rest : List PP) :
    dedupPass (x :: rest)
      = x :: (((x :: rest).zip rest).filter
          (fun q => differs_from_prev q.1.1 q.2.1)).map (fun q => q.2) := by
  simp only [dedupPass, dedupGo, Bool.and_self, if_true]
  exact congrArg _ (dedupGo_after x rest)

/-- C3 (counterexample): the duplicate-removal pass is not idempotent: on
`[(datetime 1, id 1), (datetime 2, id 1), (datetime 1, id 2)]` the first
pass drops the middle item (repeated episode id) and keeps the third (it
differs from the dropped middle item in both fields), but a second pass then
drops the third item (its datetime equals the first item's). -/
theorem dedup_not_idempotent :
    dedupPass (dedupPass [(pD1, "a"), (pD2, "b"), (pD3, "c")])
      ≠ dedupPass [(pD1, "a"), (pD2, "b"), (pD3, "c")] := by
  decide

/-- C3 (amended): the duplicate-removal pass is a fixed point only on inputs
whose adjacent items already differ in both datetime and episode id: on such
sequences it removes nothing.  (In general its output need not satisfy this,
because the pass compares each item to its immediate input predecessor even
when that predecessor was dropped, so a second pass can remove further
items.) -/
theorem dedup_fixed_point_of_adjacent_distinct (xs : List PP)
    (h : List.Chain' (fun a b => differs_from_prev a.1 b.1 = true) xs) :
    dedupPass xs = xs := by
  cases xs with
  | nil => rfl
  | cons x rest =>
    simp only [dedupPass, dedupGo, Bool.and_self, if_true]
    exact congrArg _ (dedupGo_of_chain rest x h)

/-- C3 (witness for the amended theorem): a two-element sequence whose items
differ in both fields is untouched by the pass. -/
theorem dedup_fixed_point_witness :
    dedupPass [(pD2, "a"), (pD3, "x")] = [(pD2, "a"), (pD3, "x")] :=
  dedup_fixed_point_of_adjacent_distinct [(pD2, "a"), (pD3, "x")]
    (List.chain'_pair.mpr (by decide))

/-- C4 (counterexample): when the episode media directory holds no `media.*`
file, `PodcastItem.from_program` fails with `IndexError` (from `list(...)[0]`
on the empty glob result), which is not the NotFound (`FileNotFoundError`)
kind the claim names. -/
theorem missing_media_is_index_error :
    PodcastItem.from_program fsEmpty progA "oid-a" "https://x.example/" ["r"]
      = .error .indexError
    ∧ PyErr.indexError ≠ PyErr.fileNotFound :=
  ⟨rfl, by decide⟩

/-- C4 (amended): if the episode media directory contains no file whose name
stem is `media`, `PodcastItem.from_program` fails with an `IndexError` (not
NotFound), and that error propagates so the whole `create` call for that
episode aborts with `IndexError`, producing zero items. -/
theorem missing_media_aborts (fs : FileSys) (prog : Program) (oid : ObjectId)
    (base_url : String) (root : List String)
    (hglob : fs.mediaGlob (root ++ [prog.platform_id, prog.station_id, oid]) = []) :
    PodcastItem.from_program fs prog oid base_url root = .error .indexError
    ∧ create fs base_url root [(prog, oid)] none none false true
        = .error .indexError := by
  have h1 : PodcastItem.from_program fs prog oid base_url root = .error .indexError := by
    simp only [PodcastItem.from_program]
    rw [hglob]
  refine ⟨h1, ?_⟩
  rw [create, resolveSortBy_single]
  simp only [Bind.bind, Except.bind, arrangePairs_single, selectChannel,
    List.getLast?, List.head?, List.mapM_cons, List.mapM_nil, h1]
  simp

/-- C4 (witness for the amended theorem): instantiated at `progA` and the
empty file system. -/
theorem missing_media_aborts_witness :
    PodcastItem.from_program fsEmpty progA "oid-a" "https://x.example/" ["r"]
      = .error .indexError
    ∧ create fsEmpty "https://x.example/" ["r"] [(progA, "oid-a")] none none false true
        = .error .indexError :=
  missing_media_aborts fsEmpty progA "oid-a" "https://x.example/" ["r"] rfl

/-- C5: with `sort_by` unset the chosen key is `datetime` when the pairs span
more than one distinct station id (some pair's station differs from the
first pair's); otherwise `episode_id` exactly when the single shared station
id is `onsen.ag` or `hibiki-radio.jp`, else `datetime`.  With `sort_by` set
to any other value, `create` fails with the InvalidArgument error. -/
theorem sort_key_policy (p : PP) (rest : List PP) (s : String)
    (fs : FileSys) (base_url : String) (root : List String)
    (channel : Option PodcastChannel) (fo rd : Bool)
    (hs1 : s ≠ "datetime") (hs2 : s ≠ "episode_id") :
    resolveSortBy none (p :: rest)
      = .ok (if ∃ q ∈ rest, q.1.station_id ≠ p.1.station_id then "datetime"
             else if p.1.station_id = "onsen.ag" ∨ p.1.station_id = "hibiki-radio.jp"
                  then "episode_id" else "datetime")
    ∧ create fs base_url root (p :: rest) channel (some s) fo rd
        = .error .invalidArgument := by
  constructor
  · have hiff : (1 < (((p :: rest).map (fun q => q.1.station_id)).dedup).length)
        ↔ ∃ q ∈ rest, q.1.station_id ≠ p.1.station_id := by
      rw [List.map_cons, one_lt_dedup_length_iff]
      constructor
      · rintro ⟨b, hb, hbne⟩
        obtain ⟨q, hq, rfl⟩ := List.mem_map.mp hb
        exact ⟨q, hq, hbne⟩
      · rintro ⟨q, hq, hne⟩
        exact ⟨q.1.station_id, List.mem_map.mpr ⟨q, hq, rfl⟩, hne⟩
    simp only [resolveSortBy]
    by_cases hc : ∃ q ∈ rest, q.1.station_id ≠ p.1.station_id
    · rw [if_pos (hiff.mpr hc), if_pos hc]
    · rw [if_neg (fun hh => hc (hiff.mp hh)), if_neg hc]
      by_cases hal : p.1.station_id = "onsen.ag" ∨ p.1.station_id = "hibiki-radio.jp" <;>
        simp [hal]
  · simp [create, resolveSortBy, hs1, hs2, Bind.bind, Except.bind]

/-- C5 (witness): a single `TBS` pair resolves to `datetime`, and the invalid
explicit value `name` makes `create` fail with the InvalidArgument error. -/
theorem sort_key_policy_witness :
    resolveSortBy none [(pA7, "a")]
      = .ok (if ∃ q ∈ ([] : List PP), q.1.station_id ≠ (pA7, ("a" : ObjectId)).1.station_id
             then "datetime"
             else if (pA7, ("a" : ObjectId)).1.station_id = "onsen.ag"
                  ∨ (pA7, ("a" : ObjectId)).1.station_id = "hibiki-radio.jp"
                  then "episode_id" else "datetime")
    ∧ create fsA "" [] [(pA7, "a")] none (some "name") false true
        = .error .invalidArgument :=
  sort_key_policy (pA7, "a") [] "name" fsA "" [] none false true
    (by decide) (by decide)

/-- C6: the sort over the pairs permutes the input, orders it on the chosen
key ascending when `from_oldest` is true and descending when it is false,
and is stable: two pairs with equal keys that appear in some relative input
order still appear in that order in the output. -/
theorem sort_stable_and_directed (sb : String) (fo : Bool) (pairs : List PP)
    (a b : PP) (hk : sortKey sb a = sortKey sb b) (hab : List.Sublist [a, b] pairs) :
    (sortPairs sb fo pairs).Perm pairs
    ∧ (sortPairs sb fo pairs).Pairwise
        (fun x y => if fo then sortKey sb x ≤ sortKey sb y
                    else sortKey sb y ≤ sortKey sb x)
    ∧ List.Sublist [a, b] (sortPairs sb fo pairs) := by
  cases fo with
  | true =>
    simp only [sortPairs, if_true]
    refine ⟨List.mergeSort_perm pairs _, ?_, ?_⟩
    · have hp : (pairs.mergeSort (fun x y => decide (sortKey sb x ≤ sortKey sb y))).Pairwise
          (fun x y => decide (sortKey sb x ≤ sortKey sb y) = true) :=
        List.sorted_mergeSort (sortLe_trans (sortKey sb)) (sortLe_total (sortKey sb)) pairs
      exact hp.imp (fun hxy => by simpa using hxy)
    · exact List.pair_sublist_mergeSort (sortLe_trans (sortKey sb))
        (sortLe_total (sortKey sb)) (by simp [hk]) hab
  | false =>
    simp only [sortPairs, if_false, Bool.false_eq_true]
    have trans2 : ∀ x y z : PP, decide (sortKey sb y ≤ sortKey sb x) = true →
        decide (sortKey sb z ≤ sortKey sb y) = true →
        decide (sortKey sb z ≤ sortKey sb x) = true := by
      intro x y z h1 h2
      simp only [decide_eq_true_eq] at h1 h2 ⊢
      omega
    have total2 : ∀ x y : PP,
        (decide (sortKey sb y ≤ sortKey sb x) || decide (sortKey sb x ≤ sortKey sb y)) = true := by
      intro x y
      simp only [Bool.or_eq_true, decide_eq_true_eq]
      omega
    refine ⟨List.mergeSort_perm pairs _, ?_, ?_⟩
    · have hp : (pairs.mergeSort (fun x y => decide (sortKey sb y ≤ sortKey sb x))).Pairwise
          (fun x y => decide (sortKey sb y ≤ sortKey sb x) = true) :=
        List.sorted_mergeSort trans2 total2 pairs
      exact hp.imp (fun hxy => by simpa using hxy)
    · exact List.pair_sublist_mergeSort trans2 total2 (by simp [hk]) hab

/-- C6 (witness): two equal-datetime pairs keep their input order under the
default descending datetime sort. -/
theorem sort_stable_and_directed_witness :
    (sortPairs "datetime" false [(pA7, "a"), (pB7, "b")]).Perm [(pA7, "a"), (pB7, "b")]
    ∧ (sortPairs "datetime" false [(pA7, "a"), (pB7, "b")]).Pairwise
        (fun x y => if false then sortKey "datetime" x ≤ sortKey "datetime" y
                    else sortKey "datetime" y ≤ sortKey "datetime" x)
    ∧ List.Sublist [(pA7, "a"), (pB7, "b")] (sortPairs "datetime" false [(pA7, "a"), (pB7, "b")]) :=
  sort_stable_and_directed "datetime" false [(pA7, "a"), (pB7, "b")]
    (pA7, "a") (pB7, "b") (by decide) (List.Sublist.refl _)

unseal List.merge List.mergeSort in
/-- C7 (counterexample): with `from_oldest` and `remove_duplicates` both
true, two equal-datetime pairs sort (stably) to `[(pA7, a), (pB7, b)]`, the
dedup pass then drops the last pair `(pB7, b)`, and the channel is derived
from `pA7` — not from the last element `pB7` of the sorted sequence, whose
channel record differs. -/
theorem channel_not_from_sorted_end :
    resolveSortBy none [(pA7, "a"), (pB7, "b")] = .ok "datetime"
    ∧ sortPairs "datetime" true [(pA7, "a"), (pB7, "b")] = [(pA7, "a"), (pB7, "b")]
    ∧ (create fs7 "" [] [(pA7, "a"), (pB7, "b")] none none true true).toOption.map
        (fun fd => fd.channel) = some (PodcastChannel.from_program pA7)
    ∧ PodcastChannel.from_program pA7 ≠ PodcastChannel.from_program pB7 :=
  ⟨rfl, rfl, rfl, by decide⟩

/-- C7 (amended): for every input, when no channel override is supplied and
`create` succeeds, the channel record is derived from exactly one source
record: the record at the most-recent end of the post-deduplication
sequence — its last element when `from_oldest` is true, its first element
when `from_oldest` is false.  (When `from_oldest` is false this coincides
with the first element of the sorted sequence, since the dedup pass keeps
the first element; when `from_oldest` is true the dedup pass may drop the
last element of the sorted sequence, and the channel then comes from the
last surviving pair instead.) -/
theorem channel_from_processed_end (fs : FileSys) (base_url : String)
    (root : List String) (pairs : List PP) (sort_by : Option String)
    (fo rd : Bool) (sb : String) (ch : PodcastChannel) (items : List PodcastItem)
    (hsb : resolveSortBy sort_by pairs = .ok sb)
    (h : create fs base_url root pairs none sort_by fo rd
          = .ok { channel := ch, items := items }) :
    ((if fo then (arrangePairs sb fo rd pairs).getLast?
      else (arrangePairs sb fo rd pairs).head?).map
        (fun q => PodcastChannel.from_program q.1)) = some ch := by
  rw [create, hsb] at h
  simp only [Bind.bind, Except.bind] at h
  obtain ⟨chan, hchan, h⟩ := except_bind_ok h
  obtain ⟨items2, hitems, h⟩ := except_bind_ok h
  simp only [pure, Except.pure, Except.ok.injEq, Feed.mk.injEq] at h
  simp only [selectChannel] at hchan
  cases hopt : (if fo then (arrangePairs sb fo rd pairs).getLast?
      else (arrangePairs sb fo rd pairs).head?) with
  | none =>
    rw [hopt] at hchan
    exact absurd hchan (by simp)
  | some q =>
    rw [hopt] at hchan
    simp only [Except.ok.injEq] at hchan
    simp only [Option.map_some']
    rw [hchan, h.1]

unseal List.merge List.mergeSort in
/-- C7 (witness for the amended theorem): with `from_oldest` false the
channel comes from the head of the post-dedup sequence. -/
theorem channel_from_processed_end_witness :
    ((if false then (arrangePairs "datetime" false true [(pA7, "a"), (pB7, "b")]).getLast?
      else (arrangePairs "datetime" false true [(pA7, "a"), (pB7, "b")]).head?).map
        (fun q => PodcastChannel.from_program q.1))
      = some (PodcastChannel.from_program pA7) :=
  channel_from_processed_end fs7 "" [] [(pA7, "a"), (pB7, "b")] none false true
    "datetime" (PodcastChannel.from_program pA7) [itemW7] rfl rfl

/-- C8: the enclosure MIME type is a pure function of the file extension and
the `is_video` flag: `.mp3` yields `audio/mpeg`, `.m4a` yields
`audio/x-m4a`, `.mp4` yields `video/mp4` when `is_video` and `audio/x-m4a`
otherwise, `.mov` yields `video/quicktime`, and every other extension fails
with the UnsupportedFormat error. -/
theorem enclosure_type_table (v : Bool) (s : String)
    (h1 : s ≠ ".mp3") (h2 : s ≠ ".m4a") (h3 : s ≠ ".mp4") (h4 : s ≠ ".mov") :
    path_to_enclosure_type ".mp3" v = .ok "audio/mpeg"
    ∧ path_to_enclosure_type ".m4a" v = .ok "audio/x-m4a"
    ∧ path_to_enclosure_type ".mp4" true = .ok "video/mp4"
    ∧ path_to_enclosure_type ".mp4" false = .ok "audio/x-m4a"
    ∧ path_to_enclosure_type ".mov" v = .ok "video/quicktime"
    ∧ path_to_enclosure_type s v = .error .unsupportedFormat := by
  refine ⟨rfl, rfl, rfl, rfl, rfl, ?_⟩
  simp [path_to_enclosure_type, h1, h2, h3, h4]

/-- C8 (witness): instantiated at `is_video` true and the unsupported
extension `.wav`. -/
theorem enclosure_type_table_witness :
    path_to_enclosure_type ".mp3" true = .ok "audio/mpeg"
    ∧ path_to_enclosure_type ".m4a" true = .ok "audio/x-m4a"
    ∧ path_to_enclosure_type ".mp4" true = .ok "video/mp4"
    ∧ path_to_enclosure_type ".mp4" false = .ok "audio/x-m4a"
    ∧ path_to_enclosure_type ".mov" true = .ok "video/quicktime"
    ∧ path_to_enclosure_type ".wav" true = .error .unsupportedFormat :=
  enclosure_type_table true ".wav" (by decide) (by decide) (by decide) (by decide)

/-- C9 (counterexample): the publish-date conversion does not convert to the
same instant: for the aware input `wall 540, offset +0` (a UTC timestamp)
the emitted string keeps the wall-clock fields unchanged and only swaps the
offset label, so it denotes a different instant than the input. -/
theorem pub_date_not_converted :
    (datetime_to_pub_data { wall := 540, tz := some 0 }).wall = 540
    ∧ (datetime_to_pub_data { wall := 540, tz := some 0 }).offsetMinutes = pytz_tokyo_offset
    ∧ (datetime_to_pub_data { wall := 540, tz := some 0 }).instant
        ≠ PyDateTime.instant { wall := 540, tz := some 0 } :=
  ⟨rfl, rfl, by decide⟩

/-- C9 (amended): the emitted publish-date string carries the fixed offset of
pytz's Asia/Tokyo zone object as installed by `datetime.replace` (its LMT
base +09:19), but the input is relabelled rather than converted: its
wall-clock fields are kept unchanged, so an input carrying any other zone
comes out denoting a different instant. -/
theorem pub_date_relabels_tokyo (d : PyDateTime) (z : Int)
    (hz : d.tz = some z) (hne : z ≠ pytz_tokyo_offset) :
    (datetime_to_pub_data d).wall = d.wall
    ∧ (datetime_to_pub_data d).offsetMinutes = pytz_tokyo_offset
    ∧ (datetime_to_pub_data d).instant ≠ d.instant := by
  refine ⟨rfl, rfl, ?_⟩
  simp only [datetime_to_pub_data, strftime_rfc822, tz_replace, PubDateString.instant,
    PyDateTime.instant, hz, Option.getD_some, pytz_tokyo_offset] at hne ⊢
  omega

/-- C9 (witness for the amended theorem): instantiated at an input carrying a
+01:00 zone. -/
theorem pub_date_relabels_tokyo_witness :
    (datetime_to_pub_data { wall := 540, tz := some 60 }).wall
        = PyDateTime.wall { wall := 540, tz := some 60 }
    ∧ (datetime_to_pub_data { wall := 540, tz := some 60 }).offsetMinutes = pytz_tokyo_offset
    ∧ (datetime_to_pub_data { wall := 540, tz := some 60 }).instant
        ≠ PyDateTime.instant { wall := 540, tz := some 60 } :=
  pub_date_relabels_tokyo { wall := 540, tz := some 60 } 60 rfl (by decide)

/-- C10: when the located media file has extension `.mov` and the source
record's precomputed duration is absent or zero, `PodcastItem.from_program`
fails with the media inspector's UnsupportedFormat error, even though `.mov`
is an accepted extension for the enclosure type resolver. -/
theorem mov_duration_unsupported (fs : FileSys) (prog : Program) (oid : ObjectId)
    (base_url : String) (root : List String) (f : FSFile) (rest : List FSFile)
    (hglob : fs.mediaGlob (root ++ [prog.platform_id, prog.station_id, oid]) = f :: rest)
    (hsuf : f.suffix = ".mov")
    (hdur : prog.duration = none ∨ prog.duration = some 0) :
    PodcastItem.from_program fs prog oid base_url root = .error .unsupportedFormat
    ∧ path_to_enclosure_type f.suffix prog.is_video = .ok "video/quicktime" := by
  have hd : media_path_to_duration f = .error .unsupportedFormat := by
    simp [media_path_to_duration, hsuf]
  constructor
  · simp only [PodcastItem.from_program]
    rw [hglob]
    rcases hdur with h0 | h0 <;>
      simp [h0, hd, Bind.bind, Except.bind]
  · simp [path_to_enclosure_type, hsuf]

/-- C10 (witness): instantiated at a `.mov` media file and a record with no
precomputed duration. -/
theorem mov_duration_unsupported_witness :
    PodcastItem.from_program fsMov pMovW "m" "" [] = .error .unsupportedFormat
    ∧ path_to_enclosure_type fileMov.suffix pMovW.is_video = .ok "video/quicktime" :=
  mov_duration_unsupported fsMov pMovW "m" "" [] fileMov [] rfl rfl (Or.inl rfl)

end JadioPodcast
